import Mathlib

/-!
Shallow embedding of the Flask backend in src/backend/app.py (pronunciation
app). The three POST handlers (`analyze_pitch`, `text_to_speech`,
`forced_alignment_endpoint`) are translated as pure state-passing functions.

Modelling conventions:
* Python characters are Unicode code points (`Nat`); a Python string is a
  `List Nat`.
* The file system is an explicit state `FS`: the list of existing temporary
  files (named by fresh numbers) plus a counter supplying the next fresh name.
  `tempfile.NamedTemporaryFile(delete=False)` is `FS.mkTemp`;
  `if os.path.exists(p): os.remove(p)` is `FS.removeIfExists`.
* External collaborators (parselmouth, the ffmpeg subprocess, soundfile,
  the MMS_FA model, torchaudio decoding, the OpenAI text-to-speech API) are
  black boxes, as the spec treats them; an environment record supplies, per
  request, each call's outcome: success with its (opaque) result, or an
  exception carrying a message.  In-memory tensor reshaping and resampling
  are infallible pure transformations and are not failure points.
* Floating-point times, frequencies and scores are modelled as rationals;
  only comparison with zero and structural equality are ever used.
* Each handler's result records the HTTP status, the response body, and
  whether the relevant external adapter (pitch library / alignment model /
  synthesis API) was actually invoked during the request.
-/

namespace PronApp

/-- File-system state: existing temporary files and a fresh-name counter. -/
structure FS where
  files : List Nat
  next : Nat
deriving DecidableEq

/-- tempfile.NamedTemporaryFile(delete=False): create a fresh file on disk
and return its name together with the new state. -/
def FS.mkTemp (fs : FS) : Nat × FS :=
  (fs.next, ⟨fs.next :: fs.files, fs.next + 1⟩)

/-- Python `if os.path.exists(p): os.remove(p)` (the cleanup idiom used in
every `finally:` block of app.py). -/
def FS.removeIfExists (fs : FS) (p : Nat) : FS :=
  ⟨fs.files.erase p, fs.next⟩

/-- A Python string, as the sequence of Unicode code points (`Nat`) of its
characters. -/
abbrev PyString := List Nat

/-- `LABELS_NO_STAR = bundle.get_labels(star=None)` (app.py line 31): the
fixed label list of the torchaudio MMS_FA bundle, namely the characters
- a i e n o u t s r m k l d g h y b p w c v j z f apostrophe q x,
here as code points. -/
def LABELS_NO_STAR : List Nat :=
  [45, 97, 105, 101, 110, 111, 117, 116, 115, 114, 109, 107, 108, 100,
   103, 104, 121, 98, 112, 119, 99, 118, 106, 122, 102, 39, 113, 120]

/-- Position of a character in a label list (first occurrence), or `none`. -/
def lookupIdx (c : Nat) : List Nat → Nat → Option Nat
  | [], _ => none
  | x :: xs, i => if x = c then some i else lookupIdx c xs (i + 1)

/-- `DICT_NO_STAR = bundle.get_dict(star=None)` (app.py line 30) as a
function: a label is mapped to its index in `LABELS_NO_STAR`; a character
absent from the vocabulary is mapped to `none` (so `char in DICT_NO_STAR`
is `(DICT_NO_STAR char).isSome`). -/
def DICT_NO_STAR (c : Nat) : Option Nat :=
  lookupIdx c LABELS_NO_STAR 0

/-- Python `str.lower` on one character (ASCII case mapping: the upper-case
letters A..Z, code points 65..90, move down by 32; every other character is
unchanged). -/
def lowerChar (c : Nat) : Nat :=
  if 65 ≤ c ∧ c ≤ 90 then c + 32 else c

/-- Python `str.lower` on a string, character by character. -/
def lowerStr (s : PyString) : PyString :=
  s.map lowerChar

/-- Whitespace as recognised by Python `str.split()` with no argument:
space, tab, newline, carriage return, vertical tab, form feed. -/
def isPySpace (c : Nat) : Bool :=
  c = 32 || c = 9 || c = 10 || c = 13 || c = 11 || c = 12

/-- Helper for `pySplit`: scan the string, accumulating the current word in
reverse; whitespace ends the current word, and empty words are dropped. -/
def splitAux : PyString → PyString → List PyString
  | [], acc => if acc.isEmpty then [] else [acc.reverse]
  | c :: cs, acc =>
    if isPySpace c then
      if acc.isEmpty then splitAux cs [] else acc.reverse :: splitAux cs []
    else
      splitAux cs (c :: acc)

/-- Python `str.split()` with no argument: the maximal runs of
non-whitespace characters, in order. -/
def pySplit (s : PyString) : List PyString :=
  splitAux s []

/-- App.py line 180:
`tokens = [DICT_NO_STAR[char] for word in transcript.lower().split()
for char in word if char in DICT_NO_STAR]`.
For each word of the lowercased, whitespace-split transcript, each character
present in the vocabulary contributes its index; other characters are
skipped. -/
def transcriptTokens (transcript : PyString) : List Nat :=
  ((pySplit (lowerStr transcript)).map
    (fun word => word.filterMap DICT_NO_STAR)).flatten

/-- Modelled from the words of the claim about line 180, for comparison with
`transcriptTokens`: the vocabulary indices of the transcript's characters
taken in order, characters absent from the vocabulary dropped, and no other
transformation applied. -/
def transcriptTokensSpec (transcript : PyString) : List Nat :=
  transcript.filterMap DICT_NO_STAR

/-! ### The pitch endpoint (app.py lines 33-65) -/

/-- Request shape for POST /api/analyze_pitch: whether the multipart field
`audio` is present (`'audio' in request.files`). -/
structure PitchReq where
  hasAudio : Bool

/-- Outcome of the parselmouth analysis (app.py lines 46-49) on this
request's audio: the (time, frequency) samples of `to_pitch`, or an
exception with its message. -/
inductive PitchEnv where
  | ok (samples : List (ℚ × ℚ))
  | fail (msg : String)

/-- Response body of the pitch endpoint: a JSON error object or the JSON
array of time/frequency pairs. -/
inductive PitchBody where
  | err (msg : String)
  | samples (l : List (ℚ × ℚ))
deriving DecidableEq

/-- Result of one pitch request: HTTP status, body, and whether the pitch
library was invoked. -/
structure PitchResult where
  status : Nat
  body : PitchBody
  adapterInvoked : Bool
deriving DecidableEq

/-- App.py `analyze_pitch` (lines 33-65): validate the `audio` field, save
the upload to a temporary file, run parselmouth inside `try`, keep only
samples with frequency strictly greater than zero, answer 500 with the
exception's message on failure, and remove the temporary file in
`finally`. -/
def analyze_pitch (req : PitchReq) (env : PitchEnv) (fs : FS) :
    PitchResult × FS :=
  if req.hasAudio = false then
    (⟨400, .err "No audio file provided", false⟩, fs)
  else
    let allocated := fs.mkTemp
    let tempWavPath := allocated.1
    let fs1 := allocated.2
    let tryResult : Except String (List (ℚ × ℚ)) :=
      match env with
      | .ok samples => .ok (samples.filter (fun p => 0 < p.2))
      | .fail msg => .error msg
    let fs2 := fs1.removeIfExists tempWavPath
    match tryResult with
    | .ok result => (⟨200, .samples result, true⟩, fs2)
    | .error msg => (⟨500, .err msg, true⟩, fs2)

/-! ### The text-to-speech endpoint (app.py lines 67-112) -/

/-- Python falsiness of `data.get(field)` for a string field: the field is
missing (`None`) or the empty string. -/
def falsyStr : Option String → Bool
  | none => true
  | some s => s.isEmpty

/-- Request body of POST /api/text_to_speech: the optional JSON fields
`text` and `api_key`. -/
structure TtsReq where
  text : Option String
  api_key : Option String

/-- Outcomes of the two outbound steps of the synthesis call:
`client.audio.speech.create` (line 89) and `response.stream_to_file`
(line 96). Constructing the OpenAI client (line 82) performs no network
call and is not a failure point. -/
structure TtsEnv where
  synthesis : Except String Unit
  streaming : Except String Unit

/-- Response body of the text-to-speech endpoint: a JSON error object or a
file attachment (path, download name, mimetype). -/
inductive TtsBody where
  | err (msg : String)
  | fileAttachment (path : Nat) (downloadName : String) (mimetype : String)
deriving DecidableEq

/-- Result of one text-to-speech request: HTTP status, body, and whether any
outbound network call to the synthesis API was made. -/
structure TtsResult where
  status : Nat
  body : TtsBody
  networkCalled : Bool
deriving DecidableEq

/-- App.py `text_to_speech` (lines 67-112): validate `text` then `api_key`
(each missing or empty answers 400 before the `try` block, so before any
network call), create the temporary output file, call the synthesis API and
stream its result into the file, return the file as an attachment, answer
500 with the exception's message on failure, and remove the temporary file
in `finally`. -/
def text_to_speech (req : TtsReq) (env : TtsEnv) (fs : FS) :
    TtsResult × FS :=
  if falsyStr req.text then
    (⟨400, .err "No text provided", false⟩, fs)
  else if falsyStr req.api_key then
    (⟨400, .err "No API key provided", false⟩, fs)
  else
    let allocated := fs.mkTemp
    let speechFilePath := allocated.1
    let fs1 := allocated.2
    let tryResult : Except String Unit :=
      match env.synthesis with
      | .error e => .error e
      | .ok _ => env.streaming
    let fs2 := fs1.removeIfExists speechFilePath
    match tryResult with
    | .ok _ =>
      (⟨200, .fileAttachment speechFilePath "speech.mp3" "audio/mpeg", true⟩,
       fs2)
    | .error e => (⟨500, .err e, true⟩, fs2)

/-! ### Forced alignment (app.py lines 114-264) -/

/-- One merged token span as produced by `F.merge_tokens` (line 191): a
vocabulary index with its frame range and confidence score. -/
structure Span where
  token : Nat
  startFrame : Nat
  endFrame : Nat
  score : ℚ
deriving DecidableEq

/-- One formatted alignment entry (lines 194-202): the label character for
the span's token, the frame range, and the score. -/
structure AlignEntry where
  token : Nat
  start_frame : Nat
  end_frame : Nat
  score : ℚ
deriving DecidableEq

/-- Outcomes of the external calls made while aligning this request's
audio: the ffmpeg subprocess (line 129), `sf.read` (line 162), the model
inference `model(waveform)` (line 177), and the decoding step
`F.forced_align` plus `F.merge_tokens` (lines 187-191), the last as a
function of the token sequence passed to it. -/
structure AlignEnv where
  ffmpeg : Except String Unit
  sfRead : Except String Unit
  inference : Except String Unit
  decode : List Nat → Except String (List Span)

/-- App.py `convert_to_pcm_wav` (lines 114-133): run ffmpeg; a subprocess
failure is re-raised as a RuntimeError whose message wraps the subprocess
error. -/
def convert_to_pcm_wav (env : AlignEnv) : Except String Unit :=
  match env.ffmpeg with
  | .ok _ => .ok ()
  | .error e => .error ("ffmpeg conversion failed: " ++ e)

/-- Result of the `try` block of `forced_align_waveform` (lines 154-204),
before the broad `except` re-wraps the message: the alignment list or the
exception's message, plus whether `model(waveform)` was invoked. -/
structure AlignAttempt where
  result : Except String (List AlignEntry)
  modelInvoked : Bool

/-- The `try` block of `forced_align_waveform` (lines 154-204), in source
order: convert with ffmpeg, inspect (never raises: `inspect_audio_file`
catches its own exceptions), load with `sf.read`, run the model, tokenise
the transcript (line 180), reject an empty token list (lines 182-183),
decode, and format the spans (`LABELS_NO_STAR[span.token]`). -/
def alignTryBody (transcript : PyString) (env : AlignEnv) : AlignAttempt :=
  match convert_to_pcm_wav env with
  | .error e => ⟨.error e, false⟩
  | .ok _ =>
    match env.sfRead with
    | .error e => ⟨.error e, false⟩
    | .ok _ =>
      match env.inference with
      | .error e => ⟨.error e, true⟩
      | .ok _ =>
        let tokens := transcriptTokens transcript
        if tokens = [] then
          ⟨.error "No valid tokens found in transcript.", true⟩
        else
          match env.decode tokens with
          | .error e => ⟨.error e, true⟩
          | .ok spans =>
            ⟨.ok (spans.map (fun span =>
              ⟨LABELS_NO_STAR.getD span.token 0, span.startFrame,
               span.endFrame, span.score⟩)), true⟩

/-- App.py `forced_align_waveform` (lines 149-212): create the temporary
converted-WAV file, run the try block, remove the converted file in
`finally`, and re-raise any exception as a RuntimeError whose message wraps
the original one. -/
def forced_align_waveform (transcript : PyString) (env : AlignEnv)
    (fs : FS) : AlignAttempt × FS :=
  let allocated := fs.mkTemp
  let convertedWavPath := allocated.1
  let fs1 := allocated.2
  let attempt := alignTryBody transcript env
  let fs2 := fs1.removeIfExists convertedWavPath
  match attempt.result with
  | .ok l => (⟨.ok l, attempt.modelInvoked⟩, fs2)
  | .error e =>
    (⟨.error ("Failed during forced alignment: " ++ e),
      attempt.modelInvoked⟩, fs2)

/-- App.py line 215. -/
def MAX_AUDIO_FILE_SIZE : Nat := 10 * 1024 * 1024

/-- Request shape for POST /api/forced_alignment: whether the multipart
field `audio` is present, the form field `transcript` when present, and the
uploaded file's size in bytes (`audio_file.tell()` after seeking to the
end). -/
structure AlignReq where
  hasAudio : Bool
  transcript : Option PyString
  fileSize : Nat

/-- Response body of the alignment endpoint: a JSON error object or the
JSON array of alignment entries. -/
inductive AlignBody where
  | err (msg : String)
  | alignment (l : List AlignEntry)
deriving DecidableEq

/-- Result of one forced-alignment request: HTTP status, body, and whether
the pretrained model's inference was invoked. -/
structure AlignResult where
  status : Nat
  body : AlignBody
  modelInvoked : Bool
deriving DecidableEq

/-- App.py `forced_alignment_endpoint` (lines 217-264): validate the
`audio` and `transcript` fields, reject an upload larger than
`MAX_AUDIO_FILE_SIZE` before any file is written, save the upload to a
temporary file, run `forced_align_waveform`, answer 200 with the alignment
or 500 with the wrapped exception message, and remove the temporary file in
`finally`. -/
def forced_alignment_endpoint (req : AlignReq) (env : AlignEnv) (fs : FS) :
    AlignResult × FS :=
  if req.hasAudio = false then
    (⟨400, .err "No audio file provided", false⟩, fs)
  else
    match req.transcript with
    | none => (⟨400, .err "No transcript text provided", false⟩, fs)
    | some transcript =>
      if MAX_AUDIO_FILE_SIZE < req.fileSize then
        (⟨400, .err "Audio file too large", false⟩, fs)
      else
        let allocated := fs.mkTemp
        let tmpWavPath := allocated.1
        let fs1 := allocated.2
        let aligned := forced_align_waveform transcript env fs1
        let attempt := aligned.1
        let fs2 := aligned.2
        let fs3 := fs2.removeIfExists tmpWavPath
        match attempt.result with
        | .ok l => (⟨200, .alignment l, attempt.modelInvoked⟩, fs3)
        | .error e =>
          (⟨500, .err ("Internal server error: " ++ e),
            attempt.modelInvoked⟩, fs3)

/-! ### Helper lemmas about tokenization -/

/-- Flattening the words of `splitAux` recovers the pending accumulator
followed by the non-whitespace characters of the remaining input. -/
theorem splitAux_flatten (s : PyString) :
    ∀ acc : PyString,
      (splitAux s acc).flatten =
        acc.reverse ++ s.filter (fun c => !isPySpace c) := by
  induction s with
  | nil =>
    intro acc
    unfold splitAux
    cases acc <;> simp [List.isEmpty]
  | cons c cs ih =>
    intro acc
    unfold splitAux
    by_cases hsp : isPySpace c
    · cases acc with
      | nil => simp [hsp, ih, List.isEmpty]
      | cons a as => simp [hsp, ih, List.isEmpty]
    · rw [if_neg (by simp [hsp])]
      rw [ih (c :: acc)]
      simp [List.filter_cons, hsp]

/-- A whitespace character is never in the vocabulary. -/
theorem DICT_NO_STAR_space (c : Nat) (h : isPySpace c = true) :
    DICT_NO_STAR c = none := by
  unfold isPySpace at h
  simp only [Bool.or_eq_true, decide_eq_true_eq] at h
  rcases h with ((((h | h) | h) | h) | h) | h <;> subst h <;> decide

/-- Dropping whitespace first does not change a vocabulary `filterMap`. -/
theorem filterMap_filter_space (s : PyString) :
    (s.filter (fun c => !isPySpace c)).filterMap DICT_NO_STAR =
      s.filterMap DICT_NO_STAR := by
  induction s with
  | nil => rfl
  | cons c cs ih =>
    by_cases hsp : isPySpace c
    · simp [List.filter_cons, hsp, List.filterMap_cons,
            DICT_NO_STAR_space c hsp, ih]
    · simp [List.filter_cons, hsp, List.filterMap_cons, ih]

/-- `filterMap` distributes over flattening a list of words. -/
theorem flatten_map_filterMap (f : Nat → Option Nat)
    (ws : List PyString) :
    ((ws.map (fun w => w.filterMap f)).flatten) = ws.flatten.filterMap f := by
  induction ws with
  | nil => rfl
  | cons w ws ih =>
    rw [List.map_cons, List.flatten_cons, List.flatten_cons,
        List.filterMap_append, ih]

/-- The token list of app.py line 180, in closed form: look each character
of the lowercased transcript up in the vocabulary, in order, keeping the
hits. Splitting on whitespace only removes whitespace characters, which are
not in the vocabulary anyway. -/
theorem transcriptTokens_eq (t : PyString) :
    transcriptTokens t = (lowerStr t).filterMap DICT_NO_STAR := by
  unfold transcriptTokens pySplit
  rw [flatten_map_filterMap, splitAux_flatten, List.reverse_nil,
      List.nil_append, filterMap_filter_space]

/-- ASCII lowercasing of one character is idempotent. -/
theorem lowerChar_idem (c : Nat) : lowerChar (lowerChar c) = lowerChar c := by
  unfold lowerChar
  by_cases h : 65 ≤ c ∧ c ≤ 90
  · rw [if_pos h]
    have hn : ¬(65 ≤ c + 32 ∧ c + 32 ≤ 90) := by omega
    rw [if_neg hn]
  · rw [if_neg h, if_neg h]

/-- ASCII lowercasing of a string is idempotent. -/
theorem lowerStr_idem (s : PyString) : lowerStr (lowerStr s) = lowerStr s := by
  unfold lowerStr
  rw [List.map_map]
  exact List.map_congr_left (fun c _ => lowerChar_idem c)

/-! ### Claims -/

/-- C4: for every successful pitch-analysis request, the returned JSON array
is exactly the sequence of (time, frequency) pairs produced by the pitch
library, in order, restricted to pairs with frequency strictly greater than
zero, and so it contains no entry with frequency ≤ 0. -/
theorem C4_pitch_filters_unvoiced (req : PitchReq) (samples : List (ℚ × ℚ))
    (fs : FS) (h : req.hasAudio = true) :
    (analyze_pitch req (.ok samples) fs).1.status = 200 ∧
    (analyze_pitch req (.ok samples) fs).1.body =
      .samples (samples.filter (fun p => 0 < p.2)) ∧
    ∀ p ∈ samples.filter (fun p => 0 < p.2), 0 < p.2 := by
  refine ⟨?_, ?_, ?_⟩
  · simp [analyze_pitch, h]
  · simp [analyze_pitch, h]
  · intro p hp
    exact of_decide_eq_true (List.mem_filter.mp hp).2

theorem C4_pitch_filters_unvoiced_witness :
    (analyze_pitch ⟨true⟩
      (.ok [((1 : ℚ), (5 : ℚ)), ((2 : ℚ), (0 : ℚ)), ((3 : ℚ), (-1 : ℚ))])
      ⟨[], 0⟩).1.status = 200 ∧
    (analyze_pitch ⟨true⟩
      (.ok [((1 : ℚ), (5 : ℚ)), ((2 : ℚ), (0 : ℚ)), ((3 : ℚ), (-1 : ℚ))])
      ⟨[], 0⟩).1.body =
      .samples ([((1 : ℚ), (5 : ℚ)), ((2 : ℚ), (0 : ℚ)),
                 ((3 : ℚ), (-1 : ℚ))].filter (fun p => 0 < p.2)) ∧
    ∀ p ∈ [((1 : ℚ), (5 : ℚ)), ((2 : ℚ), (0 : ℚ)),
           ((3 : ℚ), (-1 : ℚ))].filter (fun p => 0 < p.2), 0 < p.2 :=
  C4_pitch_filters_unvoiced ⟨true⟩
    [((1 : ℚ), (5 : ℚ)), ((2 : ℚ), (0 : ℚ)), ((3 : ℚ), (-1 : ℚ))]
    ⟨[], 0⟩ rfl

/-- C5 counterexample: the claim says a character absent from the vocabulary
is dropped with no other transformation applied; but on the one-character
transcript A (code point 65), a character absent from the vocabulary, the
code produces the token 1 (the index of lower-case a) instead of the empty
sequence the claim's words prescribe. -/
theorem C5_no_transformation_counterexample :
    transcriptTokens [65] = [1] ∧ transcriptTokensSpec [65] = [] ∧
      transcriptTokens [65] ≠ transcriptTokensSpec [65] := by
  refine ⟨by decide, by decide, by decide⟩

/-- C5 amended: the token sequence passed to forced alignment equals the
vocabulary indices of the characters of the LOWERCASED transcript taken in
order, with every character absent from the fixed vocabulary silently
dropped (no error, no substitution) and no other transformation applied. -/
theorem C5_tokens_of_lowercased (t : PyString) :
    transcriptTokens t = (lowerStr t).filterMap DICT_NO_STAR :=
  transcriptTokens_eq t

/-- C10: transcript tokenization is case-insensitive: the token sequence
computed from a transcript equals the token sequence computed from its
lowercased form. -/
theorem C10_tokens_case_insensitive (t : PyString) :
    transcriptTokens t = transcriptTokens (lowerStr t) := by
  rw [transcriptTokens_eq, transcriptTokens_eq, lowerStr_idem]

/-- C8: a request lacking the `audio` multipart field is answered 400 with
an error message by both audio-accepting endpoints, with no temporary file
written, the file system untouched, and no adapter invoked. -/
theorem C8_missing_audio_rejected (preq : PitchReq) (penv : PitchEnv)
    (areq : AlignReq) (aenv : AlignEnv) (fs₁ fs₂ : FS)
    (hp : preq.hasAudio = false) (ha : areq.hasAudio = false) :
    analyze_pitch preq penv fs₁ =
      (⟨400, .err "No audio file provided", false⟩, fs₁) ∧
    forced_alignment_endpoint areq aenv fs₂ =
      (⟨400, .err "No audio file provided", false⟩, fs₂) := by
  constructor
  · simp [analyze_pitch, hp]
  · simp [forced_alignment_endpoint, ha]

theorem C8_missing_audio_rejected_witness :
    analyze_pitch ⟨false⟩ (.fail "unused") ⟨[7], 9⟩ =
      (⟨400, .err "No audio file provided", false⟩, ⟨[7], 9⟩) ∧
    forced_alignment_endpoint ⟨false, some [104, 105], 3⟩
        ⟨.ok (), .ok (), .ok (), fun _ => .ok []⟩ ⟨[7], 9⟩ =
      (⟨400, .err "No audio file provided", false⟩, ⟨[7], 9⟩) :=
  C8_missing_audio_rejected ⟨false⟩ (.fail "unused")
    ⟨false, some [104, 105], 3⟩ ⟨.ok (), .ok (), .ok (), fun _ => .ok []⟩
    ⟨[7], 9⟩ ⟨[7], 9⟩ rfl rfl

/-- C6: an alignment request whose uploaded audio is larger than
`MAX_AUDIO_FILE_SIZE` (10 * 1024 * 1024 bytes) is answered 400, the file
system is entirely untouched (in particular no temporary file is created
before the rejection), and the model is never invoked. -/
theorem C6_oversized_rejected (req : AlignReq) (env : AlignEnv) (fs : FS)
    (h : MAX_AUDIO_FILE_SIZE < req.fileSize) :
    (forced_alignment_endpoint req env fs).1.status = 400 ∧
    (forced_alignment_endpoint req env fs).2 = fs ∧
    (forced_alignment_endpoint req env fs).1.modelInvoked = false := by
  unfold forced_alignment_endpoint
  by_cases h1 : req.hasAudio = false
  · simp [h1]
  · cases h2 : req.transcript with
    | none => simp [h1, h2]
    | some t => simp [h1, h2, h]

theorem C6_oversized_rejected_witness :
    MAX_AUDIO_FILE_SIZE < 10485761 ∧
    (forced_alignment_endpoint ⟨true, some [104, 105], 10485761⟩
        ⟨.ok (), .ok (), .ok (), fun _ => .ok []⟩ ⟨[4], 6⟩).1.status = 400 ∧
    (forced_alignment_endpoint ⟨true, some [104, 105], 10485761⟩
        ⟨.ok (), .ok (), .ok (), fun _ => .ok []⟩ ⟨[4], 6⟩).2 = ⟨[4], 6⟩ ∧
    (forced_alignment_endpoint ⟨true, some [104, 105], 10485761⟩
        ⟨.ok (), .ok (), .ok (), fun _ => .ok []⟩
        ⟨[4], 6⟩).1.modelInvoked = false :=
  ⟨by decide,
   C6_oversized_rejected ⟨true, some [104, 105], 10485761⟩
     ⟨.ok (), .ok (), .ok (), fun _ => .ok []⟩ ⟨[4], 6⟩ (by decide)⟩

/-- C7: a text-to-speech request with missing or empty `text`, or with a
missing or empty `api_key`, is answered 400 with no outbound network call
and the file system untouched. -/
theorem C7_tts_validation_before_network (req : TtsReq) (env : TtsEnv)
    (fs : FS)
    (h : falsyStr req.text = true ∨ falsyStr req.api_key = true) :
    (text_to_speech req env fs).1.status = 400 ∧
    (text_to_speech req env fs).1.networkCalled = false ∧
    (text_to_speech req env fs).2 = fs := by
  unfold text_to_speech
  by_cases ht : falsyStr req.text
  · simp [ht]
  · rcases h with h | h
    · exact absurd h ht
    · simp [ht, h]

theorem C7_tts_validation_before_network_witness :
    (falsyStr (some "") = true ∨ falsyStr (some "key") = true) ∧
    (text_to_speech ⟨some "", some "key"⟩ ⟨.ok (), .ok ()⟩
      ⟨[2], 5⟩).1.status = 400 ∧
    (text_to_speech ⟨some "", some "key"⟩ ⟨.ok (), .ok ()⟩
      ⟨[2], 5⟩).1.networkCalled = false ∧
    (text_to_speech ⟨some "", some "key"⟩ ⟨.ok (), .ok ()⟩ ⟨[2], 5⟩).2 =
      ⟨[2], 5⟩ :=
  ⟨Or.inl (by decide),
   C7_tts_validation_before_network ⟨some "", some "key"⟩ ⟨.ok (), .ok ()⟩
     ⟨[2], 5⟩ (Or.inl (by decide))⟩

/-- C3: on every exit path of every one of the three POST handlers, every
temporary file created during the request has been deleted when the handler
returns: the set of files on disk afterwards is exactly the set of files on
disk before the request. -/
theorem C3_temp_files_cleaned (preq : PitchReq) (penv : PitchEnv)
    (treq : TtsReq) (tenv : TtsEnv) (areq : AlignReq) (aenv : AlignEnv)
    (fs₁ fs₂ fs₃ : FS) :
    (analyze_pitch preq penv fs₁).2.files = fs₁.files ∧
    (text_to_speech treq tenv fs₂).2.files = fs₂.files ∧
    (forced_alignment_endpoint areq aenv fs₃).2.files = fs₃.files := by
  refine ⟨?_, ?_, ?_⟩
  · unfold analyze_pitch
    by_cases h : preq.hasAudio = false
    · simp [h]
    · cases penv <;>
        simp [h, FS.mkTemp, FS.removeIfExists, List.erase_cons_head]
  · unfold text_to_speech
    by_cases ht : falsyStr treq.text
    · simp [ht]
    · by_cases hk : falsyStr treq.api_key
      · simp [ht, hk]
      · rcases tenv with ⟨syn, str⟩
        cases syn <;> cases str <;>
          simp [ht, hk, FS.mkTemp, FS.removeIfExists, List.erase_cons_head]
  · unfold forced_alignment_endpoint forced_align_waveform alignTryBody
      convert_to_pcm_wav
    by_cases h1 : areq.hasAudio = false
    · simp [h1]
    · cases h2 : areq.transcript with
      | none => simp [h1, h2]
      | some t =>
        by_cases h3 : MAX_AUDIO_FILE_SIZE < areq.fileSize
        · simp [h1, h2, h3]
        · rcases aenv with ⟨ff, sfr, inf, dec⟩
          cases ff <;> cases sfr <;> cases inf <;>
            by_cases h4 : transcriptTokens t = [] <;>
            cases hdec : dec (transcriptTokens t) <;>
            simp [h1, h2, h3, h4, hdec, FS.mkTemp, FS.removeIfExists,
                  List.erase_cons_head]

/-- C1 counterexample: on a valid alignment request whose transcript 123
(code points 49 50 51) contains no character of the vocabulary, with every
external call succeeding, the request is indeed rejected (status 500, not
200), but the pretrained model HAS been invoked before the rejection,
contradicting the claim that no inference call is made. -/
theorem C1_no_model_call_counterexample :
    transcriptTokens [49, 50, 51] = [] ∧
    (forced_alignment_endpoint ⟨true, some [49, 50, 51], 0⟩
        ⟨.ok (), .ok (), .ok (), fun _ => .ok []⟩ ⟨[], 0⟩).1.status = 500 ∧
    (forced_alignment_endpoint ⟨true, some [49, 50, 51], 0⟩
        ⟨.ok (), .ok (), .ok (), fun _ => .ok []⟩
        ⟨[], 0⟩).1.modelInvoked = true :=
  ⟨rfl, rfl, rfl⟩

/-- C1 amended: an alignment request whose transcript contains no character
of the fixed vocabulary is rejected with an error (a 500 response carrying
the no-valid-tokens message), but only AFTER the pretrained model has been
invoked: when conversion, loading and inference all succeed, the inference
call happens before the zero-token rejection. -/
theorem C1_rejected_after_model_call (req : AlignReq) (env : AlignEnv)
    (fs : FS) (t : PyString) (h1 : req.hasAudio = true)
    (h2 : req.transcript = some t)
    (h3 : req.fileSize ≤ MAX_AUDIO_FILE_SIZE)
    (h4 : transcriptTokens t = [])
    (h5 : env.ffmpeg = .ok ()) (h6 : env.sfRead = .ok ())
    (h7 : env.inference = .ok ()) :
    (forced_alignment_endpoint req env fs).1.status = 500 ∧
    (forced_alignment_endpoint req env fs).1.body =
      .err ("Internal server error: " ++
        ("Failed during forced alignment: " ++
          "No valid tokens found in transcript.")) ∧
    (forced_alignment_endpoint req env fs).1.modelInvoked = true := by
  unfold forced_alignment_endpoint forced_align_waveform alignTryBody
    convert_to_pcm_wav
  simp [h1, h2, Nat.not_lt.mpr h3, h4, h5, h6, h7]

theorem C1_rejected_after_model_call_witness :
    (forced_alignment_endpoint ⟨true, some [63, 33], 0⟩
        ⟨.ok (), .ok (), .ok (), fun _ => .ok []⟩ ⟨[], 0⟩).1.status = 500 ∧
    (forced_alignment_endpoint ⟨true, some [63, 33], 0⟩
        ⟨.ok (), .ok (), .ok (), fun _ => .ok []⟩ ⟨[], 0⟩).1.body =
      .err ("Internal server error: " ++
        ("Failed during forced alignment: " ++
          "No valid tokens found in transcript.")) ∧
    (forced_alignment_endpoint ⟨true, some [63, 33], 0⟩
        ⟨.ok (), .ok (), .ok (), fun _ => .ok []⟩
        ⟨[], 0⟩).1.modelInvoked = true :=
  C1_rejected_after_model_call ⟨true, some [63, 33], 0⟩
    ⟨.ok (), .ok (), .ok (), fun _ => .ok []⟩ ⟨[], 0⟩ [63, 33]
    rfl rfl (by decide) (by decide) rfl rfl rfl

/-- C2 counterexample: on a valid alignment request whose transcript 0
(code point 48) yields zero valid tokens, with every external call
succeeding, the endpoint answers with status 500 — a 500-equivalent
processing failure — and not with the 400-equivalent client-error status
the claim prescribes. -/
theorem C2_status_400_counterexample :
    transcriptTokens [48] = [] ∧
    (forced_alignment_endpoint ⟨true, some [48], 0⟩
        ⟨.ok (), .ok (), .ok (), fun _ => .ok []⟩ ⟨[], 0⟩).1.status = 500 ∧
    (forced_alignment_endpoint ⟨true, some [48], 0⟩
        ⟨.ok (), .ok (), .ok (), fun _ => .ok []⟩ ⟨[], 0⟩).1.status ≠ 400 :=
  ⟨rfl, rfl, by decide⟩

/-- C2 amended: an alignment request whose transcript yields zero valid
tokens is reported as a 500 processing failure whose message wraps the
validation text No valid tokens found in transcript. (the ValueError is
swallowed by the broad except clauses), not as a 400-equivalent client
error. -/
theorem C2_zero_tokens_reported_500 (req : AlignReq) (env : AlignEnv)
    (fs : FS) (t : PyString) (h1 : req.hasAudio = true)
    (h2 : req.transcript = some t)
    (h3 : req.fileSize ≤ MAX_AUDIO_FILE_SIZE)
    (h4 : transcriptTokens t = [])
    (h5 : env.ffmpeg = .ok ()) (h6 : env.sfRead = .ok ())
    (h7 : env.inference = .ok ()) :
    (forced_alignment_endpoint req env fs).1.status = 500 ∧
    (forced_alignment_endpoint req env fs).1.body =
      .err ("Internal server error: " ++
        ("Failed during forced alignment: " ++
          "No valid tokens found in transcript.")) := by
  unfold forced_alignment_endpoint forced_align_waveform alignTryBody
    convert_to_pcm_wav
  simp [h1, h2, Nat.not_lt.mpr h3, h4, h5, h6, h7]

theorem C2_zero_tokens_reported_500_witness :
    (forced_alignment_endpoint ⟨true, some [44], 0⟩
        ⟨.ok (), .ok (), .ok (), fun _ => .ok []⟩ ⟨[], 0⟩).1.status = 500 ∧
    (forced_alignment_endpoint ⟨true, some [44], 0⟩
        ⟨.ok (), .ok (), .ok (), fun _ => .ok []⟩ ⟨[], 0⟩).1.body =
      .err ("Internal server error: " ++
        ("Failed during forced alignment: " ++
          "No valid tokens found in transcript.")) :=
  C2_zero_tokens_reported_500 ⟨true, some [44], 0⟩
    ⟨.ok (), .ok (), .ok (), fun _ => .ok []⟩ ⟨[], 0⟩ [44]
    rfl rfl (by decide) (by decide) rfl rfl rfl

/-- C9: at every processing-failure point of the three POST handlers — the
pitch-library call, the synthesis-API call and its streaming step, the
transcoder, the audio load, the model inference, and the alignment
decoding — the exception is caught and reported as a 500 JSON error
envelope whose message contains the exception's message; the response is
never a success or partial result. -/
theorem C9_failures_reported_500 (msg : String) (fs : FS) :
    (∀ req : PitchReq, req.hasAudio = true →
      (analyze_pitch req (.fail msg) fs).1 = ⟨500, .err msg, true⟩) ∧
    (∀ req : TtsReq, ∀ env : TtsEnv,
      falsyStr req.text = false → falsyStr req.api_key = false →
      env.synthesis = .error msg →
      (text_to_speech req env fs).1 = ⟨500, .err msg, true⟩) ∧
    (∀ req : TtsReq, ∀ env : TtsEnv,
      falsyStr req.text = false → falsyStr req.api_key = false →
      env.synthesis = .ok () → env.streaming = .error msg →
      (text_to_speech req env fs).1 = ⟨500, .err msg, true⟩) ∧
    (∀ req : AlignReq, ∀ env : AlignEnv, ∀ t : PyString,
      req.hasAudio = true → req.transcript = some t →
      req.fileSize ≤ MAX_AUDIO_FILE_SIZE →
      (env.ffmpeg = .error msg →
        (forced_alignment_endpoint req env fs).1 =
          ⟨500, .err ("Internal server error: " ++
            ("Failed during forced alignment: " ++
              ("ffmpeg conversion failed: " ++ msg))), false⟩) ∧
      (env.ffmpeg = .ok () → env.sfRead = .error msg →
        (forced_alignment_endpoint req env fs).1 =
          ⟨500, .err ("Internal server error: " ++
            ("Failed during forced alignment: " ++ msg)), false⟩) ∧
      (env.ffmpeg = .ok () → env.sfRead = .ok () →
        env.inference = .error msg →
        (forced_alignment_endpoint req env fs).1 =
          ⟨500, .err ("Internal server error: " ++
            ("Failed during forced alignment: " ++ msg)), true⟩) ∧
      (env.ffmpeg = .ok () → env.sfRead = .ok () →
        env.inference = .ok () → transcriptTokens t ≠ [] →
        env.decode (transcriptTokens t) = .error msg →
        (forced_alignment_endpoint req env fs).1 =
          ⟨500, .err ("Internal server error: " ++
            ("Failed during forced alignment: " ++ msg)), true⟩)) := by
  refine ⟨?_, ?_, ?_, ?_⟩
  · intro req h
    simp [analyze_pitch, h]
  · intro req env ht hk hsyn
    simp [text_to_speech, ht, hk, hsyn]
  · intro req env ht hk hsyn hstr
    simp [text_to_speech, ht, hk, hsyn, hstr]
  · intro req env t h1 h2 h3
    refine ⟨?_, ?_, ?_, ?_⟩
    · intro hff
      unfold forced_alignment_endpoint forced_align_waveform alignTryBody
        convert_to_pcm_wav
      simp [h1, h2, Nat.not_lt.mpr h3, hff]
    · intro hff hsf
      unfold forced_alignment_endpoint forced_align_waveform alignTryBody
        convert_to_pcm_wav
      simp [h1, h2, Nat.not_lt.mpr h3, hff, hsf]
    · intro hff hsf hinf
      unfold forced_alignment_endpoint forced_align_waveform alignTryBody
        convert_to_pcm_wav
      simp [h1, h2, Nat.not_lt.mpr h3, hff, hsf, hinf]
    · intro hff hsf hinf htok hdec
      unfold forced_alignment_endpoint forced_align_waveform alignTryBody
        convert_to_pcm_wav
      simp [h1, h2, Nat.not_lt.mpr h3, hff, hsf, hinf, htok, hdec]

theorem C9_failures_reported_500_witness :
    (analyze_pitch ⟨true⟩ (.fail "boom") ⟨[], 0⟩).1 =
      ⟨500, .err "boom", true⟩ ∧
    (text_to_speech ⟨some "hello", some "key"⟩ ⟨.error "boom", .ok ()⟩
      ⟨[], 0⟩).1 = ⟨500, .err "boom", true⟩ ∧
    (forced_alignment_endpoint ⟨true, some [104, 105], 0⟩
        ⟨.error "boom", .ok (), .ok (), fun _ => .ok []⟩ ⟨[], 0⟩).1 =
      ⟨500, .err ("Internal server error: " ++
        ("Failed during forced alignment: " ++
          ("ffmpeg conversion failed: " ++ "boom"))), false⟩ :=
  ⟨(C9_failures_reported_500 "boom" ⟨[], 0⟩).1 ⟨true⟩ rfl,
   (C9_failures_reported_500 "boom" ⟨[], 0⟩).2.1 ⟨some "hello", some "key"⟩
     ⟨.error "boom", .ok ()⟩ rfl rfl rfl,
   ((C9_failures_reported_500 "boom" ⟨[], 0⟩).2.2.2 ⟨true, some [104, 105], 0⟩
     ⟨.error "boom", .ok (), .ok (), fun _ => .ok []⟩ [104, 105]
     rfl rfl (by decide)).1 rfl⟩

end PronApp
